import Mathlib

/-!
# Refresh-token store and route handlers of ElifTechSchool2019

A shallow embedding of `server/src/dataAccess/usersTokensDao.js` and of the
route handlers of `server/src/controllers/usersController.js`, together with
the properties of the session/token lifecycle that the design document states
about them.

The `users_tokens` table is an ordered list of rows.  Every DAO function of the
source is a single call of one primitive of the ORM model with a fixed
`where` clause; the primitives are modelled once, over an arbitrary
row predicate, and the DAO functions instantiate them as the source does.
Each DAO function returns a promise in the source; here it returns the value
that promise resolves with, paired with the table after the call when the call
writes.

The declaration of the table is not among the sources.  `Model.create` is the
insert alone; `Model.createKeyed` is the create on the store keyed by user that
the design describes, and `Keyed.createUserToken` is the DAO function over it.
The two agree on every store that holds no record of the user.
-/

namespace UsersTokens

/-! ## Data model -/

/-- A row of the `users_tokens` table.  `expiration_date` is the instant, in
milliseconds since the epoch, denoted by the ISO-8601 text that
`new Date(Date.now()).toISOString()` renders; the rendering is one-to-one on
instants, so the instant stands for the text. -/
structure Row where
  id : Nat
  user_id : Nat
  refresh_token : String
  expiration_date : Nat
deriving DecidableEq, Repr

/-- The table: its rows in storage order and the next value of the
auto-increment key. -/
structure Store where
  rows : List Row
  nextId : Nat
deriving DecidableEq, Repr

/-- The values handed to `Model.create`: every column but the generated key. -/
structure NewRow where
  user_id : Nat
  refresh_token : String
  expiration_date : Nat
deriving DecidableEq, Repr

/-! ## ORM primitives -/

/-- Modelled from the spec: the insert performed by `usersTokensModel.create` of
the model declared in `models/index.js` (absent from the sources).  It is the
step of §4.2 that "persists a new record": the row is written with a fresh key,
after the rows already stored, and returned.  The insert alone does not carry
the key of the table; `Model.createKeyed` below adds what the design says about
a user who already holds a record. -/
def Model.create (s : Store) (v : NewRow) : Store × Row :=
  let r : Row := ⟨s.nextId, v.user_id, v.refresh_token, v.expiration_date⟩
  (⟨s.rows ++ [r], s.nextId + 1⟩, r)

/-- Modelled from the spec: `usersTokensModel.create` on the table as the design
describes it, the declaration of the table and of its key in `models/index.js`
being absent from the sources.  The store is keyed by user, a mapping from user
identifier to one record (§9), with at most one live record per `userId`: a new
login supersedes the prior record of that user (§3).  The record the user
holds, if any, is superseded, and the new record is persisted by the insert;
the records of the other users are untouched. -/
def Model.createKeyed (s : Store) (v : NewRow) : Store × Row :=
  Model.create ⟨s.rows.filter (fun r => !(r.user_id == v.user_id)), s.nextId⟩ v

/-- Modelled from the spec: `usersTokensModel.findAll` of the model declared in
`models/index.js` (absent from the sources): every row, in storage order. -/
def Model.findAll (s : Store) : List Row :=
  s.rows

/-- Modelled from the spec: `usersTokensModel.findOne` of the model declared in
`models/index.js` (absent from the sources).  The lookup primitive of §4.2: the
first row that satisfies the `where` clause, or nothing. -/
def Model.findOne (s : Store) (wh : Row → Bool) : Option Row :=
  s.rows.find? wh

/-- Modelled from the spec: `usersTokensModel.update` of the model declared in
`models/index.js` (absent from the sources).  The update primitive of §4.2:
every row that satisfies the `where` clause receives the new values, and the
affected-row count is returned. -/
def Model.update (s : Store) (set : Row → Row) (wh : Row → Bool) : Store × Nat :=
  (⟨s.rows.map (fun r => if wh r then set r else r), s.nextId⟩, (s.rows.filter wh).length)

/-- Modelled from the spec: `usersTokensModel.destroy` of the model declared in
`models/index.js` (absent from the sources).  The delete primitive of §4.2:
every row that satisfies the `where` clause is removed, and the number of
removed rows is returned. -/
def Model.destroy (s : Store) (wh : Row → Bool) : Store × Nat :=
  (⟨s.rows.filter (fun r => !wh r), s.nextId⟩, (s.rows.filter wh).length)

/-! ## The DAO (`usersTokensDao.js`) -/

/-- The source's `createUserToken({ userId, refreshToken })`; `now` is the
reading of `Date.now()` taken by the call. -/
def createUserToken (s : Store) (userId : Nat) (refreshToken : String) (now : Nat) :
    Store × Row :=
  Model.create s ⟨userId, refreshToken, now⟩

/-- The source's `createUserToken({ userId, refreshToken })` on the table keyed
by user: the same call, with `usersTokensModel.create` read as
`Model.createKeyed`. -/
def Keyed.createUserToken (s : Store) (userId : Nat) (refreshToken : String) (now : Nat) :
    Store × Row :=
  Model.createKeyed s ⟨userId, refreshToken, now⟩

/-- The source's `getUsersTokens()`. -/
def getUsersTokens (s : Store) : List Row :=
  Model.findAll s

/-- The source's `getTokenByUserId(userId)`: `findOne` with
`where: { user_id: userId }`. -/
def getTokenByUserId (s : Store) (userId : Nat) : Option Row :=
  Model.findOne s (fun r => r.user_id == userId)

/-- The source's `updateUserRefreshToken({ userId, refreshToken })`: `update`
setting `refresh_token` with `where: { user_id: userId }`.  The ORM hands the
affected-row count back inside a one-element array; the count stands for it. -/
def updateUserRefreshToken (s : Store) (userId : Nat) (refreshToken : String) :
    Store × Nat :=
  Model.update s (fun r => { r with refresh_token := refreshToken })
    (fun r => r.user_id == userId)

/-- The source's `deleteUserToken(id)`: `destroy` with `where: { id }`. -/
def deleteUserToken (s : Store) (id : Nat) : Store × Nat :=
  Model.destroy s (fun r => r.id == id)

/-! ## Derived notions used by the statements -/

/-- Number of rows of user `u` held by the store. -/
def userRowCount (s : Store) (u : Nat) : Nat :=
  (s.rows.filter (fun r => r.user_id == u)).length

/-- The single-session invariant: at most one row per `user_id`. -/
def AtMostOnePerUser (s : Store) : Prop :=
  ∀ u, userRowCount s u ≤ 1

/-- A store that already holds one session of user 7. -/
def staleStore : Store :=
  ⟨[⟨1, 7, "old", 0⟩], 2⟩

/-- The empty table. -/
def emptyStore : Store :=
  ⟨[], 1⟩

end UsersTokens

/-! ## Token Codec (design §4.1) -/

namespace TokenCodec

/-- The failure taxonomy of design §7. -/
inductive AuthError where
  | InvalidToken
  | ExpiredToken
  | InvalidSession
  | Unauthorized
deriving DecidableEq, Repr

/-- The input of `encode`: `{subjectId, purpose, ttlSeconds}`. -/
structure Claims where
  subjectId : Nat
  purpose : String
  ttlSeconds : Nat
deriving DecidableEq, Repr

/-- The claim fields a token carries and its signature binds. -/
structure SignedClaims where
  subjectId : Nat
  purpose : String
  issuedAt : Nat
  expiresAt : Nat
deriving DecidableEq, Repr

/-- A signed token: the claim fields and the signature over them. -/
structure Token where
  claims : SignedClaims
  signature : Nat
deriving DecidableEq, Repr

/-- Modelled from the spec: `encode` of the Token Codec (`authService.js` and
the signing library are absent from the sources).  It produces a signed token
that carries the claims plus `issuedAt` and `expiresAt = issuedAt + ttlSeconds`.
The keyed signature `sign` and the `secret` are explicit parameters, and
`issuedAt` is the clock reading of the call, in seconds. -/
def encode (sign : String → SignedClaims → Nat) (secret : String) (issuedAt : Nat)
    (c : Claims) : Token :=
  let sc : SignedClaims := ⟨c.subjectId, c.purpose, issuedAt, issuedAt + c.ttlSeconds⟩
  ⟨sc, sign secret sc⟩

/-- Modelled from the spec: `decode` of the Token Codec (`authService.js` and
the signing library are absent from the sources).  It verifies the signature
and `now <= expiresAt`: `InvalidToken` when the signature does not match,
`ExpiredToken` when the expiry has passed, the claims otherwise. -/
def decode (sign : String → SignedClaims → Nat) (secret : String) (now : Nat)
    (tok : Token) : Except AuthError SignedClaims :=
  if tok.signature = sign secret tok.claims then
    if now ≤ tok.claims.expiresAt then .ok tok.claims else .error .ExpiredToken
  else .error .InvalidToken

/-- A toy keyed signature, used only to evaluate the codec on examples. -/
def toySign (secret : String) (c : SignedClaims) : Nat :=
  secret.length + c.subjectId + c.purpose.length + c.issuedAt + c.expiresAt

end TokenCodec

/-! ## Session Refresher (design §4.4) -/

namespace Session

open UsersTokens TokenCodec

/-- The pair handed to the client on issue and on refresh. -/
structure TokenPair where
  accessToken : Token
  refreshToken : String
deriving DecidableEq, Repr

/-- Modelled from the spec: `refresh(presentedRefreshToken, userId)` of the
Session Refresher (`authService.js` is absent from the sources).  It looks up
the stored record of `userId` with `getTokenByUserId`; fails with
`InvalidSession` when no record exists or the presented token does not match
the stored value byte for byte; on a match it rotates the stored value with
`updateUserRefreshToken` to the freshly minted `newRefreshToken` and mints a new
access token with the Token Codec.  The minted opaque value, the clock reading
and the access-token lifetime are explicit parameters. -/
def refresh (sign : String → SignedClaims → Nat) (secret : String) (now ttl : Nat)
    (newRefreshToken : String) (s : Store) (presentedRefreshToken : String) (userId : Nat) :
    Except AuthError (Store × TokenPair) :=
  match getTokenByUserId s userId with
  | none => .error .InvalidSession
  | some r =>
    if r.refresh_token = presentedRefreshToken then
      .ok ((updateUserRefreshToken s userId newRefreshToken).1,
        ⟨encode sign secret now ⟨userId, "access", ttl⟩, newRefreshToken⟩)
    else .error .InvalidSession

end Session

/-! ## Route handlers (`usersController.js`) -/

namespace Http

/-- Settlement of a promise: resolved with a value, rejected with an error, or
never settled. -/
inductive Promise (α ε : Type) where
  | resolved (v : α)
  | rejected (e : ε)
  | pending
deriving DecidableEq, Repr

/-- What a handler can be observed to do with its `res` and `next` arguments.
`json b` is `res.json(b)`, `status c` is `res.status(c)`, `send b` is
`res.send(b)`, `end_` is `res.end()` and `next e` is `next(e)`. -/
inductive Effect (β ε : Type) where
  | json (body : β)
  | status (code : Nat)
  | send (body : β)
  | end_
  | next (e : ε)
deriving DecidableEq, Repr

/-- The part of an Express request the handlers read. -/
structure Request (ν : Type) where
  query : ν
  params : ν
  body : ν
deriving DecidableEq, Repr

/-- A promise chain under execution: the effects performed so far, in order,
and the settlement of the promise at the end of the chain. -/
structure Chain (β ε α : Type) where
  trace : List (Effect β ε)
  promise : Promise α ε

/-- The chain that consists of the promise returned by a service call. -/
def Chain.start {β ε α : Type} (p : Promise α ε) : Chain β ε α :=
  ⟨[], p⟩

/-- The method `.then(f)` of a promise: `f` runs on the resolved value only;
its effects are appended, and the chain continues with what `f` returns or
throws.  A rejection or a pending promise passes through. -/
def Chain.then_ {β ε α γ : Type} (c : Chain β ε α)
    (f : α → List (Effect β ε) × Except ε γ) : Chain β ε γ :=
  match c.promise with
  | .resolved v =>
    match f v with
    | (t, .ok x) => ⟨c.trace ++ t, .resolved x⟩
    | (t, .error e) => ⟨c.trace ++ t, .rejected e⟩
  | .rejected e => ⟨c.trace, .rejected e⟩
  | .pending => ⟨c.trace, .pending⟩

/-- The method `.catch(g)` of a promise: `g` runs on the rejection only; its
effects are appended, and the chain continues with what `g` returns or throws.
A resolved or a pending promise passes through. -/
def Chain.catch_ {β ε α : Type} (c : Chain β ε α)
    (g : ε → List (Effect β ε) × Except ε α) : Chain β ε α :=
  match c.promise with
  | .resolved v => ⟨c.trace, .resolved v⟩
  | .rejected e =>
    match g e with
    | (t, .ok x) => ⟨c.trace ++ t, .resolved x⟩
    | (t, .error e2) => ⟨c.trace ++ t, .rejected e2⟩
  | .pending => ⟨c.trace, .pending⟩

/-- The handler of `router.get('/me', ...)`:
`authService.authUser(req.query).then((result) => res.json(result))
.catch((error) => next(error))`.  The service `authUser` of `authService.js`
(absent from the sources) is a parameter. -/
def getMe {ν ε : Type} (authUser : ν → Promise ν ε) (req : Request ν) : Chain ν ε Unit :=
  ((Chain.start (authUser req.query)).then_
      (fun result => ([Effect.json result], .ok ()))).catch_
    (fun error => ([Effect.next error], .ok ()))

/-- An access guard used to evaluate the handler on examples: the query
"good" resolves to the principal "42", every other query is rejected. -/
def sampleAuthUser (q : String) : Promise String String :=
  if q = "good" then .resolved "42" else .rejected "Unauthorized"

end Http

/-! ## Request values and responses -/

namespace Http

/-- A JavaScript value as a JSON request carries it.  Numbers are integers
here; the handlers never compute with them. -/
inductive JsValue where
  | undefined
  | null
  | bool (b : Bool)
  | number (n : Int)
  | string (s : String)
  | array (items : List JsValue)
  | object (fields : List (String × JsValue))

/-- Property access `v.key`: the field of an object, `undefined` when the
object lacks it or the value is a primitive.  The body parser and the router
leave objects in `req.body`, `req.params` and `req.query`. -/
def JsValue.get : JsValue → String → JsValue
  | .object fields, key => (fields.lookup key).getD .undefined
  | _, _ => .undefined

/-- The source's `Array.isArray(v)`. -/
def JsValue.isArray : JsValue → Bool
  | .array _ => true
  | _ => false

/-- Truthiness, as the operator `!` of the source tests it. -/
def JsValue.truthy : JsValue → Bool
  | .undefined => false
  | .null => false
  | .bool b => b
  | .number n => n != 0
  | .string s => s != ""
  | .array _ => true
  | .object _ => true

/-- A response as the client receives it: the status line and the body, when
one was written. -/
structure Response (β : Type) where
  status : Nat
  body : Option β
deriving DecidableEq, Repr

/-- The responses a trace sends, given the status code in force: `res.status`
sets the code, `res.json`, `res.send` and `res.end` each send a response with
the code in force, `next` sends nothing. -/
def responsesFrom {β ε : Type} (code : Nat) : List (Effect β ε) → List (Response β)
  | [] => []
  | .status c :: t => responsesFrom c t
  | .json b :: t => ⟨code, some b⟩ :: responsesFrom code t
  | .send b :: t => ⟨code, some b⟩ :: responsesFrom code t
  | .end_ :: t => ⟨code, none⟩ :: responsesFrom code t
  | .next _ :: t => responsesFrom code t

/-- The responses a trace sends; the status code of a fresh response is 200. -/
def responses {β ε : Type} (t : List (Effect β ε)) : List (Response β) :=
  responsesFrom 200 t

/-- The errors a trace hands to `next`, in order. -/
def nextCalls {β ε : Type} : List (Effect β ε) → List ε
  | [] => []
  | .next e :: t => e :: nextCalls t
  | _ :: t => nextCalls t

/-! ## `PUT /users/passwords` -/

/-- The handler of `router.put('/passwords', ...)`:
`authService.passwordToken(req.body.email).then(() => res.status(204).end())
.catch((error) => next(error))`.  The service `passwordToken` of
`authService.js` (absent from the sources) is a parameter; `τ` is the type of
what it resolves with. -/
def putPasswords {τ ε : Type} (passwordToken : JsValue → Promise τ ε)
    (req : Request JsValue) : Chain JsValue ε Unit :=
  ((Chain.start (passwordToken (req.body.get "email"))).then_
      (fun _ => ([Effect.status 204, Effect.end_], .ok ()))).catch_
    (fun error => ([Effect.next error], .ok ()))

/-- A request whose body is `{ email: "a@b.c" }`. -/
def sampleResetRequest : Request JsValue :=
  ⟨.object [], .object [], .object [("email", .string "a@b.c")]⟩

/-! ## `PUT /users/:id/roles` -/

/-- What the handler of `PUT /users/:id/roles` can be observed to do: an effect
on `res` or `next`, a call of `usersRolesService.deleteRolesByUser`, or a call
of `usersRolesService.createUserRoles`. -/
inductive RolesEvent (ε : Type) where
  | res (e : Effect JsValue ε)
  | deleteRolesByUser (userId : JsValue)
  | createUserRoles (rows : List JsValue)

/-- A run of the handler of `PUT /users/:id/roles`: its events in order, and
whether the body of the `async` function threw a `TypeError`. -/
structure RolesRun (ε : Type) where
  events : List (RolesEvent ε)
  threwTypeError : Bool

/-- The handler of `router.put('/:id/roles', ...)`.  The guard
`if (!userId || !Array.isArray(roles))` sends status 401 with
`{ error: 'incorest data' }` and has no `return`, so the statements after it
run in every case: `deleteRolesByUser(userId)` is called, then `roles.map(...)`
is evaluated, which throws a `TypeError` unless `roles` is an array, then
`createUserRoles(rows).then(() => res.status(204).end()).catch(next)`.
The service `createUserRoles` of `usersRolesService.js` (absent from the
sources) is a parameter; the promise of `deleteRolesByUser` is dropped by the
source. -/
def putRoles {ε : Type} (createUserRoles : List JsValue → Promise Unit ε)
    (req : Request JsValue) : RolesRun ε :=
  let userId := req.params.get "id"
  let roles := req.body.get "roles"
  let rejected : List (RolesEvent ε) :=
    if !userId.truthy || !roles.isArray then
      [.res (.status 401), .res (.send (.object [("error", .string "incorest data")]))]
    else []
  let deleted : List (RolesEvent ε) := rejected ++ [.deleteRolesByUser userId]
  match roles with
  | .array items =>
    let rows := items.map (fun role => JsValue.object [("role_id", role), ("user_id", userId)])
    let chain : Chain JsValue ε Unit :=
      ((Chain.start (createUserRoles rows)).then_
          (fun _ => ([Effect.status 204, Effect.end_], .ok ()))).catch_
        (fun error => ([Effect.next error], .ok ()))
    ⟨deleted ++ [.createUserRoles rows] ++ chain.trace.map .res, false⟩
  | _ => ⟨deleted, true⟩

/-- The request `PUT /users/5/roles` with body `{ roles: "admin" }`. -/
def badRolesRequest : Request JsValue :=
  ⟨.object [], .object [("id", .string "5")], .object [("roles", .string "admin")]⟩

/-- A `createUserRoles` that resolves on every input. -/
def sampleCreateUserRoles (_ : List JsValue) : Promise Unit String :=
  .resolved ()

end Http

/-! ## Competitions routes (`competitionController.js`) -/

namespace Competition

open Http

/-- The functions of `competitionService.js` (absent from the sources) that the
handlers call, each with the settlement of the promise it returns. -/
structure CompetitionService (ε : Type) where
  getCompetitions : JsValue → Promise JsValue ε
  getCompetitionById : JsValue → Promise JsValue ε
  createCompetition : JsValue → Promise JsValue ε
  updateCompetition : JsValue → JsValue → Promise JsValue ε
  deleteCompetition : JsValue → Promise JsValue ε
  getCompetitionFollowers : JsValue → Promise JsValue ε
  createCompetitionFollower : JsValue → JsValue → Promise JsValue ε
  deleteCompetitionFollower : JsValue → JsValue → Promise JsValue ε

/-- The continuation `.then((result) => res.json(result))
.catch((error) => next(error))` shared by the GET routes. -/
def sendJson {ε : Type} (p : Promise JsValue ε) : Chain JsValue ε Unit :=
  ((Chain.start p).then_ (fun result => ([Effect.json result], .ok ()))).catch_
    (fun error => ([Effect.next error], .ok ()))

/-- The continuation `.then(() => res.status(code).end())
.catch((error) => next(error))` shared by the POST, PUT and DELETE routes. -/
def sendStatus {ε : Type} (code : Nat) (p : Promise JsValue ε) : Chain JsValue ε Unit :=
  ((Chain.start p).then_ (fun _ => ([Effect.status code, Effect.end_], .ok ()))).catch_
    (fun error => ([Effect.next error], .ok ()))

/-- The eight routes of the competitions router. -/
inductive Route where
  | getAll
  | getById
  | post
  | put
  | delete
  | getFollowers
  | postFollower
  | deleteFollower
deriving DecidableEq, Repr

/-- The service call each route handler makes on the request. -/
def serviceCall {ε : Type} (svc : CompetitionService ε) (req : Request JsValue) :
    Route → Promise JsValue ε
  | .getAll => svc.getCompetitions req.query
  | .getById => svc.getCompetitionById (req.params.get "id")
  | .post => svc.createCompetition req.body
  | .put => svc.updateCompetition (req.params.get "id") req.body
  | .delete => svc.deleteCompetition (req.params.get "id")
  | .getFollowers => svc.getCompetitionFollowers (req.params.get "id")
  | .postFollower => svc.createCompetitionFollower (req.params.get "id") req.body
  | .deleteFollower =>
    svc.deleteCompetitionFollower (req.params.get "id") (req.params.get "follower_id")

/-- The handler registered for each route: `res.json(result)` on the GET routes,
`res.status(201).end()` on the POST routes, `res.status(204).end()` on the PUT
and DELETE routes, and `next(error)` on a rejection in every route. -/
def handler {ε : Type} (svc : CompetitionService ε) (req : Request JsValue) :
    Route → Chain JsValue ε Unit
  | .getAll => sendJson (svc.getCompetitions req.query)
  | .getById => sendJson (svc.getCompetitionById (req.params.get "id"))
  | .post => sendStatus 201 (svc.createCompetition req.body)
  | .put => sendStatus 204 (svc.updateCompetition (req.params.get "id") req.body)
  | .delete => sendStatus 204 (svc.deleteCompetition (req.params.get "id"))
  | .getFollowers => sendJson (svc.getCompetitionFollowers (req.params.get "id"))
  | .postFollower =>
    sendStatus 201 (svc.createCompetitionFollower (req.params.get "id") req.body)
  | .deleteFollower =>
    sendStatus 204
      (svc.deleteCompetitionFollower (req.params.get "id") (req.params.get "follower_id"))

/-- The success status that the swagger comment above each route documents. -/
def swaggerSuccess : Route → Nat
  | .getAll => 200
  | .getById => 200
  | .post => 201
  | .put => 204
  | .delete => 204
  | .getFollowers => 200
  | .postFollower => 201
  | .deleteFollower => 204

/-- The body of the success response of each route: the service result on the
GET routes, none on the others. -/
def successBody (result : JsValue) : Route → Option JsValue
  | .getAll => some result
  | .getById => some result
  | .getFollowers => some result
  | _ => none

/-- A service whose reads resolve with `[]` and whose writes are rejected. -/
def sampleService : CompetitionService String :=
  { getCompetitions := fun _ => .resolved (.array [])
    getCompetitionById := fun _ => .resolved (.array [])
    createCompetition := fun _ => .rejected "denied"
    updateCompetition := fun _ _ => .rejected "denied"
    deleteCompetition := fun _ => .rejected "denied"
    getCompetitionFollowers := fun _ => .resolved (.array [])
    createCompetitionFollower := fun _ _ => .rejected "denied"
    deleteCompetitionFollower := fun _ _ => .rejected "denied" }

end Competition

/-! ## Client auth module (`client/src/store/modules/auth.js`) -/

namespace Auth

open Http

/-- The state of the module: `{ showLogin, authData }`. -/
structure State (ν : Type) where
  showLogin : ν
  authData : ν
deriving DecidableEq, Repr

/-- The mutation `setShowLogin: (state, showLogin) => state.showLogin = showLogin`. -/
def setShowLogin {ν : Type} (state : State ν) (showLogin : ν) : State ν :=
  { state with showLogin := showLogin }

/-- The mutation `setAuthData: (state, data) => state.authData = data`. -/
def setAuthData {ν : Type} (state : State ν) (data : ν) : State ν :=
  { state with authData := data }

/-- A call `commit(type, payload)`. -/
structure Commit (ν : Type) where
  type : String
  payload : ν
deriving DecidableEq, Repr

/-- The effect of one commit on the state of the module: the mutation of that
name runs; a name the module does not declare changes nothing. -/
def applyCommit {ν : Type} (state : State ν) (c : Commit ν) : State ν :=
  if c.type = "setShowLogin" then setShowLogin state c.payload
  else if c.type = "setAuthData" then setAuthData state c.payload
  else state

/-- The state after a sequence of commits. -/
def applyCommits {ν : Type} (state : State ν) (cs : List (Commit ν)) : State ν :=
  cs.foldl applyCommit state

/-- The response object of the HTTP client: the fields the module reads. -/
structure AxiosResponse (ν : Type) where
  data : ν
  status : Nat
deriving DecidableEq, Repr

/-- What the promise returned by an action resolves with: the response passed
through by `.then`, or the error returned by `.catch(err => err)`. -/
inductive Settled (ν ε : Type) where
  | response (r : AxiosResponse ν)
  | error (e : ε)
deriving DecidableEq, Repr

/-- A run of an action: the commits it made, in order, and the settlement of
the promise it returns. -/
structure ActionRun (ν ε : Type) where
  commits : List (Commit ν)
  promise : Promise (Settled ν ε) ε

/-- The action `loginUser({ commit, dispatch }, newUser)`:
`axios.post("login", newUser).then(res => { commit("setAuthData", res.data);
return res; }).catch(err => err)`.  The HTTP call is a parameter, given by the
settlement of the promise it returns: on a resolved request the `.then` callback
commits and returns the response; on a rejected request it is skipped and the
`.catch` callback returns the error, which resolves the promise of the action. -/
def loginUser {ν ε : Type} (post : String → ν → Promise (AxiosResponse ν) ε) (newUser : ν) :
    ActionRun ν ε :=
  match post "login" newUser with
  | .resolved res => ⟨[⟨"setAuthData", res.data⟩], .resolved (.response res)⟩
  | .rejected err => ⟨[], .resolved (.error err)⟩
  | .pending => ⟨[], .pending⟩

/-- A login endpoint that accepts the user "ann" and refuses everyone else. -/
def samplePost (_ : String) (user : String) : Promise (AxiosResponse String) String :=
  if user = "ann" then .resolved ⟨"token-ann", 200⟩ else .rejected "401"

end Auth

open UsersTokens

/-! ## Shared lemmas on the primitives -/

namespace UsersTokens

theorem rows_createUserToken (s : Store) (u : Nat) (t : String) (now : Nat) :
    (createUserToken s u t now).1.rows = s.rows ++ [⟨s.nextId, u, t, now⟩] := rfl

theorem row_createUserToken (s : Store) (u : Nat) (t : String) (now : Nat) :
    (createUserToken s u t now).2 = ⟨s.nextId, u, t, now⟩ := rfl

theorem rows_updateUserRefreshToken (s : Store) (u : Nat) (t : String) :
    (updateUserRefreshToken s u t).1.rows =
      s.rows.map (fun r => if r.user_id == u then { r with refresh_token := t } else r) := rfl

theorem count_updateUserRefreshToken (s : Store) (u : Nat) (t : String) :
    (updateUserRefreshToken s u t).2 = userRowCount s u := rfl

theorem rows_deleteUserToken (s : Store) (i : Nat) :
    (deleteUserToken s i).1.rows = s.rows.filter (fun r => !(r.id == i)) := rfl

theorem getTokenByUserId_eq (s : Store) (u : Nat) :
    getTokenByUserId s u = s.rows.find? (fun r => r.user_id == u) := rfl

/-- A lookup finds nothing exactly when no row belongs to the user. -/
theorem getTokenByUserId_eq_none_iff (s : Store) (u : Nat) :
    getTokenByUserId s u = none ↔ ∀ r ∈ s.rows, r.user_id ≠ u := by
  simp [getTokenByUserId_eq, List.find?_eq_none]

/-- A lookup that finds a row finds a row of the store that belongs to the user. -/
theorem getTokenByUserId_some (s : Store) (u : Nat) (r : Row)
    (h : getTokenByUserId s u = some r) : r ∈ s.rows ∧ r.user_id = u := by
  rw [getTokenByUserId_eq] at h
  refine ⟨List.mem_of_find?_eq_some h, ?_⟩
  simpa using List.find?_some h

/-- Updating a user's token keeps the user of every row. -/
theorem user_id_update (r : Row) (u : Nat) (t : String) :
    (if r.user_id == u then { r with refresh_token := t } else r).user_id = r.user_id := by
  split <;> rfl

theorem filter_user_map_update (l : List Row) (u v : Nat) (t : String) :
    (l.map (fun r => if r.user_id == u then { r with refresh_token := t } else r)).filter
        (fun r => r.user_id == v) =
      (l.filter (fun r => r.user_id == v)).map
        (fun r => if r.user_id == u then { r with refresh_token := t } else r) := by
  rw [List.filter_map]
  congr 2
  funext r
  simp only [Function.comp_apply, user_id_update]

theorem userRowCount_update (s : Store) (u v : Nat) (t : String) :
    userRowCount (updateUserRefreshToken s u t).1 v = userRowCount s v := by
  unfold userRowCount
  rw [rows_updateUserRefreshToken, filter_user_map_update, List.length_map]

theorem userRowCount_create (s : Store) (u v : Nat) (t : String) (now : Nat) :
    userRowCount (createUserToken s u t now).1 v =
      userRowCount s v + (if u = v then 1 else 0) := by
  by_cases h : u = v <;>
    simp [userRowCount, rows_createUserToken, List.filter_append, List.filter_cons, h]

theorem userRowCount_delete_le (s : Store) (i v : Nat) :
    userRowCount (deleteUserToken s i).1 v ≤ userRowCount s v := by
  simp only [userRowCount, rows_deleteUserToken, List.filter_filter]
  apply List.Sublist.length_le
  apply List.monotone_filter_right
  intro r hr
  simp only [Bool.and_eq_true] at hr
  exact hr.1

theorem userRowCount_eq_zero_iff (s : Store) (u : Nat) :
    userRowCount s u = 0 ↔ ∀ r ∈ s.rows, r.user_id ≠ u := by
  simp [userRowCount, List.filter_eq_nil_iff]

/-! ### The keyed create -/

theorem rows_keyed_createUserToken (s : Store) (u : Nat) (t : String) (now : Nat) :
    (Keyed.createUserToken s u t now).1.rows =
      s.rows.filter (fun r => !(r.user_id == u)) ++ [⟨s.nextId, u, t, now⟩] := rfl

theorem row_keyed_createUserToken (s : Store) (u : Nat) (t : String) (now : Nat) :
    (Keyed.createUserToken s u t now).2 = ⟨s.nextId, u, t, now⟩ := rfl

/-- On a store that holds no record of the user, the keyed create is the plain
insert of `createUserToken`. -/
theorem keyed_createUserToken_eq_of_no_row (s : Store) (u : Nat) (t : String) (now : Nat)
    (h : ∀ r ∈ s.rows, r.user_id ≠ u) :
    Keyed.createUserToken s u t now = createUserToken s u t now := by
  have hrows : s.rows.filter (fun r => !(r.user_id == u)) = s.rows := by
    rw [List.filter_eq_self]
    intro r hr
    simpa using h r hr
  cases s with
  | mk rows nextId =>
    show createUserToken ⟨List.filter _ rows, nextId⟩ u t now = createUserToken ⟨rows, nextId⟩ u t now
    rw [show List.filter _ rows = rows from hrows]

/-- The records of the other users are the ones the store held, in order. -/
theorem keyed_create_other_users (s : Store) (u v : Nat) (t : String) (now : Nat)
    (hv : v ≠ u) :
    (Keyed.createUserToken s u t now).1.rows.filter (fun r => r.user_id == v) =
      s.rows.filter (fun r => r.user_id == v) := by
  rw [rows_keyed_createUserToken, List.filter_append, List.filter_filter]
  have hlast : List.filter (fun r => r.user_id == v) [(⟨s.nextId, u, t, now⟩ : Row)] = [] := by
    simp [List.filter_cons, Ne.symm hv]
  rw [hlast, List.append_nil]
  apply List.filter_congr
  intro r _
  by_cases hr : r.user_id = v
  · simp [hr, hv]
  · simp [hr]

/-- After a keyed create the user holds exactly one record, and every other
user holds as many as before. -/
theorem userRowCount_keyed_create (s : Store) (u v : Nat) (t : String) (now : Nat) :
    userRowCount (Keyed.createUserToken s u t now).1 v =
      if v = u then 1 else userRowCount s v := by
  by_cases hv : v = u
  · subst hv
    simp [userRowCount, rows_keyed_createUserToken, List.filter_append, List.filter_filter]
  · simp only [hv, if_false]
    unfold userRowCount
    rw [keyed_create_other_users s u v t now hv]

/-- The lookup after a keyed create returns the created record. -/
theorem getTokenByUserId_keyed_create (s : Store) (u : Nat) (t : String) (now : Nat) :
    getTokenByUserId (Keyed.createUserToken s u t now).1 u =
      some (Keyed.createUserToken s u t now).2 := by
  have hnone : List.find? (fun r => r.user_id == u)
      (s.rows.filter (fun r => !(r.user_id == u))) = none := by
    rw [List.find?_eq_none]
    intro r hr
    have := (List.mem_filter.1 hr).2
    simpa using this
  rw [getTokenByUserId_eq, rows_keyed_createUserToken, row_keyed_createUserToken,
    List.find?_append, hnone]
  simp

end UsersTokens

/-! ## Lookup after create -/

/-- C1: for every store state, also one that already holds a row of `U`, every
user `U` and every token `T`: after `createUserToken` for `U` with `T` on the
table keyed by user, `getTokenByUserId U` returns the created record, whose
`refresh_token` equals `T`. -/
theorem c1_lookup_after_keyed_create (s : Store) (U : Nat) (T : String) (now : Nat) :
    ∃ r, getTokenByUserId (Keyed.createUserToken s U T now).1 U = some r ∧
      r = (Keyed.createUserToken s U T now).2 ∧ r.user_id = U ∧ r.refresh_token = T :=
  ⟨(Keyed.createUserToken s U T now).2, getTokenByUserId_keyed_create s U T now, rfl, rfl, rfl⟩

namespace UsersTokens

/-- After an update every row of the user holds the new token. -/
theorem token_of_user_after_update (s : Store) (u : Nat) (t : String) (r : Row)
    (hr : r ∈ (updateUserRefreshToken s u t).1.rows) (hu : r.user_id = u) :
    r.refresh_token = t := by
  rw [rows_updateUserRefreshToken, List.mem_map] at hr
  obtain ⟨a, _, ha⟩ := hr
  by_cases h : a.user_id = u
  · simp only [h, beq_self_eq_true, if_true] at ha
    rw [← ha]
  · have hb : (a.user_id == u) = false := by simpa using h
    simp only [hb, Bool.false_eq_true, if_false] at ha
    subst ha
    exact absurd hu h

/-- A user with at least one row is found by the lookup. -/
theorem getTokenByUserId_isSome_of_count (s : Store) (u : Nat) (h : 0 < userRowCount s u) :
    ∃ r, getTokenByUserId s u = some r := by
  cases hg : getTokenByUserId s u with
  | some r => exact ⟨r, rfl⟩
  | none =>
    have h0 := (userRowCount_eq_zero_iff s u).2 ((getTokenByUserId_eq_none_iff s u).1 hg)
    omega

/-- In a store without a row of the user, the lookup after a create returns the
created row. -/
theorem getTokenByUserId_create_of_none (s : Store) (u : Nat) (t : String) (now : Nat)
    (h : getTokenByUserId s u = none) :
    getTokenByUserId (createUserToken s u t now).1 u = some (createUserToken s u t now).2 := by
  rw [getTokenByUserId_eq] at h
  simp [getTokenByUserId_eq, rows_createUserToken, row_createUserToken, List.find?_append, h]

/-- The lookup after a create followed by an update returns a row that holds the
token of the update. -/
theorem getTokenByUserId_update_create (s : Store) (u : Nat) (t1 t2 : String) (now : Nat) :
    ∃ r, getTokenByUserId
        (updateUserRefreshToken (createUserToken s u t1 now).1 u t2).1 u = some r ∧
      r.refresh_token = t2 := by
  have hc : 0 < userRowCount (updateUserRefreshToken (createUserToken s u t1 now).1 u t2).1 u := by
    rw [userRowCount_update, userRowCount_create]
    simp
  obtain ⟨r, hr⟩ := getTokenByUserId_isSome_of_count _ _ hc
  obtain ⟨hmem, hu⟩ := getTokenByUserId_some _ _ _ hr
  exact ⟨r, hr, token_of_user_after_update _ _ _ _ hmem hu⟩

/-- The lookup after a keyed create followed by an update returns a row that
holds the token of the update. -/
theorem getTokenByUserId_update_keyed_create (s : Store) (u : Nat) (t1 t2 : String)
    (now : Nat) :
    ∃ r, getTokenByUserId
        (updateUserRefreshToken (Keyed.createUserToken s u t1 now).1 u t2).1 u = some r ∧
      r.refresh_token = t2 := by
  have hc : 0 <
      userRowCount (updateUserRefreshToken (Keyed.createUserToken s u t1 now).1 u t2).1 u := by
    rw [userRowCount_update, userRowCount_keyed_create]
    simp
  obtain ⟨r, hr⟩ := getTokenByUserId_isSome_of_count _ _ hc
  obtain ⟨hmem, hu⟩ := getTokenByUserId_some _ _ _ hr
  exact ⟨r, hr, token_of_user_after_update _ _ _ _ hmem hu⟩

end UsersTokens

/-! ## Rotation after create -/

/-- C2: for every store, user `U` and tokens `T1`, `T2`, after
`createUserToken` for `U` with `T1` followed by `updateUserRefreshToken` for `U`
with `T2`, `getTokenByUserId U` returns a record whose `refresh_token` is `T2`,
and when `T1` differs from `T2` no row of `U` still holds `T1`. -/
theorem c2_update_after_create (s : Store) (U : Nat) (T1 T2 : String) (now : Nat) :
    (∃ r, getTokenByUserId
        (updateUserRefreshToken (createUserToken s U T1 now).1 U T2).1 U = some r ∧
      r.refresh_token = T2) ∧
    (T1 ≠ T2 → ∀ r ∈ (updateUserRefreshToken (createUserToken s U T1 now).1 U T2).1.rows,
      r.user_id = U → r.refresh_token ≠ T1) := by
  constructor
  · exact getTokenByUserId_update_create s U T1 T2 now
  · intro hne r hmem hu h1
    exact hne (h1.symm.trans (token_of_user_after_update _ _ _ _ hmem hu))

/-- Witness of `c2_update_after_create`: user 7 logs in with "a" into a table
holding an older row of that user and rotates to "b"; both rows then hold "b". -/
theorem c2_update_after_create_witness :
    "a" ≠ "b" ∧
    (∃ r, getTokenByUserId
        (updateUserRefreshToken (createUserToken staleStore 7 "a" 5).1 7 "b").1 7 = some r ∧
      r.refresh_token = "b") ∧
    ∀ r ∈ (updateUserRefreshToken (createUserToken staleStore 7 "a" 5).1 7 "b").1.rows,
      r.user_id = 7 → r.refresh_token ≠ "a" :=
  ⟨by decide, (c2_update_after_create staleStore 7 "a" "b" 5).1,
    (c2_update_after_create staleStore 7 "a" "b" 5).2 (by decide)⟩

/-! ## The single-session invariant -/

/-- C3: on the table keyed by user, starting from a store with at most one row
per `user_id`, every DAO operation preserves "at most one row per `user_id`":
`createUserToken`, `updateUserRefreshToken` and `deleteUserToken`.  Calling
`createUserToken` twice for the same user leaves exactly one row with that
`user_id`; calling `updateUserRefreshToken` twice for the same user leaves the
rows of that user as many as they were, exactly one for a user who holds a
session, never two. -/
theorem c3_keyed_single_session (s : Store) (U i : Nat) (T T2 : String) (now now2 : Nat)
    (h : AtMostOnePerUser s) :
    AtMostOnePerUser (Keyed.createUserToken s U T now).1 ∧
    AtMostOnePerUser (updateUserRefreshToken s U T).1 ∧
    AtMostOnePerUser (deleteUserToken s i).1 ∧
    userRowCount (Keyed.createUserToken (Keyed.createUserToken s U T now).1 U T2 now2).1 U = 1 ∧
    AtMostOnePerUser (Keyed.createUserToken (Keyed.createUserToken s U T now).1 U T2 now2).1 ∧
    userRowCount (updateUserRefreshToken (updateUserRefreshToken s U T).1 U T2).1 U =
      userRowCount s U ∧
    (userRowCount s U = 1 →
      userRowCount (updateUserRefreshToken (updateUserRefreshToken s U T).1 U T2).1 U = 1) ∧
    AtMostOnePerUser (updateUserRefreshToken (updateUserRefreshToken s U T).1 U T2).1 := by
  have hcreate : ∀ (s0 : Store) (t : String) (n : Nat), AtMostOnePerUser s0 →
      AtMostOnePerUser (Keyed.createUserToken s0 U t n).1 := by
    intro s0 t n h0 v
    rw [userRowCount_keyed_create]
    split
    · exact le_refl 1
    · exact h0 v
  refine ⟨hcreate s T now h, fun v => ?_, fun v => ?_, ?_, hcreate _ T2 now2 (hcreate s T now h),
    ?_, fun h1 => ?_, fun v => ?_⟩
  · rw [userRowCount_update]; exact h v
  · exact le_trans (userRowCount_delete_le s i v) (h v)
  · rw [userRowCount_keyed_create]; simp
  · rw [userRowCount_update, userRowCount_update]
  · rw [userRowCount_update, userRowCount_update]; exact h1
  · rw [userRowCount_update, userRowCount_update]; exact h v

/-- Witness of `c3_keyed_single_session` on the table that holds one row of
user 7: a further `createUserToken` for user 7, and a second one after it,
leave one row of user 7. -/
theorem c3_keyed_single_session_witness :
    AtMostOnePerUser staleStore ∧
    AtMostOnePerUser (Keyed.createUserToken staleStore 7 "b" 3).1 ∧
    userRowCount (Keyed.createUserToken (Keyed.createUserToken staleStore 7 "b" 3).1 7 "c" 4).1 7
      = 1 ∧
    AtMostOnePerUser (updateUserRefreshToken staleStore 7 "b").1 ∧
    AtMostOnePerUser (deleteUserToken staleStore 1).1 :=
  have h : AtMostOnePerUser staleStore := fun u => by
    unfold userRowCount staleStore
    by_cases hu : 7 = u <;> simp [hu]
  ⟨h, (c3_keyed_single_session staleStore 7 1 "b" "c" 3 4 h).1,
    (c3_keyed_single_session staleStore 7 1 "b" "c" 3 4 h).2.2.2.1,
    (c3_keyed_single_session staleStore 7 1 "b" "c" 3 4 h).2.1,
    (c3_keyed_single_session staleStore 7 1 "b" "c" 3 4 h).2.2.1⟩

/-! ## Rotation count, lookup, insertion and deletion -/

namespace UsersTokens

/-- Mapping a conditional rewrite over rows none of which meets the condition
changes nothing. -/
theorem map_update_of_no_row (l : List Row) (u : Nat) (t : String)
    (h : ∀ r ∈ l, r.user_id ≠ u) :
    l.map (fun r => if r.user_id == u then { r with refresh_token := t } else r) = l := by
  induction l with
  | nil => rfl
  | cons a l ih =>
    have ha : (a.user_id == u) = false := by simpa using h a (List.mem_cons_self a l)
    simp only [List.map_cons, ha, Bool.false_eq_true, if_false]
    rw [ih (fun r hr => h r (List.mem_cons_of_mem a hr))]

end UsersTokens

/-- C5: for every store, user `U` and token `T`, `updateUserRefreshToken`
returns the number of rows whose `user_id` equals `U`; that count is 0 exactly
when the store holds no record of `U`; and when the count is 0 the store is
unchanged. -/
theorem c5_update_count (s : Store) (U : Nat) (T : String) :
    (updateUserRefreshToken s U T).2 = (s.rows.filter (fun r => r.user_id == U)).length ∧
    ((updateUserRefreshToken s U T).2 = 0 ↔ ∀ r ∈ s.rows, r.user_id ≠ U) ∧
    ((updateUserRefreshToken s U T).2 = 0 ↔ getTokenByUserId s U = none) ∧
    ((updateUserRefreshToken s U T).2 = 0 → (updateUserRefreshToken s U T).1 = s) := by
  refine ⟨rfl, ?_, ?_, fun h0 => ?_⟩
  · rw [count_updateUserRefreshToken]; exact userRowCount_eq_zero_iff s U
  · rw [count_updateUserRefreshToken, getTokenByUserId_eq_none_iff]
    exact userRowCount_eq_zero_iff s U
  · rw [count_updateUserRefreshToken] at h0
    have hno := (userRowCount_eq_zero_iff s U).1 h0
    have hrows := map_update_of_no_row s.rows U T hno
    cases s with
    | mk rows nextId =>
      show (⟨_, nextId⟩ : Store) = ⟨rows, nextId⟩
      rw [show List.map _ rows = rows from hrows]

/-- Witness of `c5_update_count`: user 8 holds no row of the table that holds
one row of user 7, the count is 0 and the table is unchanged. -/
theorem c5_update_count_witness :
    (updateUserRefreshToken staleStore 8 "x").2 = 0 ∧
    (updateUserRefreshToken staleStore 8 "x").1 = staleStore ∧
    getTokenByUserId staleStore 8 = none :=
  ⟨by decide, (c5_update_count staleStore 8 "x").2.2.2 (by decide),
    (c5_update_count staleStore 8 "x").2.2.1.1 (by decide)⟩

/-- C6: for every store and user `U`, `getTokenByUserId U` returns nothing
exactly when no row has `user_id` equal to `U`, and otherwise returns a row of
the store whose `user_id` is `U`. -/
theorem c6_lookup_exact (s : Store) (U : Nat) :
    (getTokenByUserId s U = none ↔ ∀ r ∈ s.rows, r.user_id ≠ U) ∧
    (∀ r, getTokenByUserId s U = some r → r ∈ s.rows ∧ r.user_id = U) :=
  ⟨getTokenByUserId_eq_none_iff s U, fun r h => getTokenByUserId_some s U r h⟩

/-- Witness of `c6_lookup_exact`: the lookup of user 7 in the table that holds
one row of user 7 returns that row. -/
theorem c6_lookup_exact_witness :
    getTokenByUserId staleStore 7 = some ⟨1, 7, "old", 0⟩ ∧
    (⟨1, 7, "old", 0⟩ : Row) ∈ staleStore.rows ∧ (⟨1, 7, "old", 0⟩ : Row).user_id = 7 :=
  ⟨by decide, (c6_lookup_exact staleStore 7).2 ⟨1, 7, "old", 0⟩ (by decide)⟩

/-- C7: for every store, user `U`, token `T` and clock reading `now`,
`createUserToken` adds exactly one row, placed after the existing rows, which
are unchanged; the new row has `user_id = U`, `refresh_token = T` and
`expiration_date = now`, the creation instant itself. -/
theorem c7_create_adds_one_row (s : Store) (U : Nat) (T : String) (now : Nat) :
    (createUserToken s U T now).1.rows = s.rows ++ [(createUserToken s U T now).2] ∧
    (createUserToken s U T now).1.rows.length = s.rows.length + 1 ∧
    (createUserToken s U T now).2.user_id = U ∧
    (createUserToken s U T now).2.refresh_token = T ∧
    (createUserToken s U T now).2.expiration_date = now := by
  refine ⟨rfl, ?_, rfl, rfl, rfl⟩
  rw [rows_createUserToken, List.length_append, List.length_singleton]

/-- C8: for every store and identifier `i`, `deleteUserToken i` keeps, in
order, exactly the rows whose `id` differs from `i`, and returns the number of
rows whose `id` equals `i`; the rows kept and the rows counted make up the
table; no row with `id = i` remains; every row with another `id` is still
present; and when no row has `id = i` the count is 0 and the store is
unchanged. -/
theorem c8_delete_by_id (s : Store) (i : Nat) :
    (deleteUserToken s i).1.rows = s.rows.filter (fun r => !(r.id == i)) ∧
    (deleteUserToken s i).2 = (s.rows.filter (fun r => r.id == i)).length ∧
    (deleteUserToken s i).1.rows.length + (deleteUserToken s i).2 = s.rows.length ∧
    (∀ r ∈ (deleteUserToken s i).1.rows, r.id ≠ i) ∧
    (∀ r ∈ s.rows, r.id ≠ i → r ∈ (deleteUserToken s i).1.rows) ∧
    ((∀ r ∈ s.rows, r.id ≠ i) → (deleteUserToken s i).2 = 0 ∧ (deleteUserToken s i).1 = s) := by
  refine ⟨rfl, rfl, ?_, fun r hr => ?_, fun r hr hne => ?_, fun hno => ⟨?_, ?_⟩⟩
  · show (s.rows.filter (fun r => !(r.id == i))).length +
      (s.rows.filter (fun r => r.id == i)).length = s.rows.length
    have hlen := List.length_eq_length_filter_add (l := s.rows) (fun r => r.id == i)
    omega
  · rw [rows_deleteUserToken, List.mem_filter] at hr
    simpa using hr.2
  · rw [rows_deleteUserToken, List.mem_filter]
    exact ⟨hr, by simpa using hne⟩
  · show (s.rows.filter (fun r => r.id == i)).length = 0
    rw [List.length_eq_zero, List.filter_eq_nil_iff]
    intro r hr
    simpa using hno r hr
  · have hrows : s.rows.filter (fun r => !(r.id == i)) = s.rows := by
      rw [List.filter_eq_self]
      intro r hr
      simpa using hno r hr
    cases s with
    | mk rows nextId =>
      show (⟨_, nextId⟩ : Store) = ⟨rows, nextId⟩
      rw [show List.filter _ rows = rows from hrows]

/-- Witness of `c8_delete_by_id`: the table that holds one row with `id = 1`
holds no row with `id = 5`; deleting 5 returns 0 and changes nothing, and the
row with `id = 1` is still present. -/
theorem c8_delete_by_id_witness :
    (deleteUserToken staleStore 5).2 = 0 ∧ (deleteUserToken staleStore 5).1 = staleStore ∧
    (⟨1, 7, "old", 0⟩ : Row) ∈ (deleteUserToken staleStore 5).1.rows :=
  ⟨((c8_delete_by_id staleStore 5).2.2.2.2.2 (by decide)).1,
    ((c8_delete_by_id staleStore 5).2.2.2.2.2 (by decide)).2,
    (c8_delete_by_id staleStore 5).2.2.2.2.1 _ (by decide) (by decide)⟩

/-! ## Token codec round trip -/

open TokenCodec Session Http

/-- C9: for every claim set with subject identifier `s` and every
`ttlSeconds > 0`, decoding the token produced by `encode`, at any time not
later than its `expiresAt`, succeeds and returns subject identifier `s`. -/
theorem c9_codec_round_trip (sign : String → SignedClaims → Nat) (secret : String)
    (issuedAt now : Nat) (c : Claims) (httl : 0 < c.ttlSeconds)
    (hnow : now ≤ (encode sign secret issuedAt c).claims.expiresAt) :
    (encode sign secret issuedAt c).claims.expiresAt = issuedAt + c.ttlSeconds ∧
    ∃ p, decode sign secret now (encode sign secret issuedAt c) = .ok p ∧
      p.subjectId = c.subjectId := by
  have _ := httl
  refine ⟨rfl, (encode sign secret issuedAt c).claims, ?_, rfl⟩
  unfold decode
  rw [if_pos hnow]
  exact if_pos rfl

/-- Witness of `c9_codec_round_trip`: a token of subject 42 issued at second 100
for 60 seconds decodes at second 160 to subject 42. -/
theorem c9_codec_round_trip_witness :
    (0 < 60 ∧ 160 ≤ (encode toySign "k" 100 ⟨42, "access", 60⟩).claims.expiresAt) ∧
    ∃ p, decode toySign "k" 160 (encode toySign "k" 100 ⟨42, "access", 60⟩) = .ok p ∧
      p.subjectId = 42 :=
  ⟨⟨by decide, by decide⟩,
    (c9_codec_round_trip toySign "k" 100 160 ⟨42, "access", 60⟩ (by decide) (by decide)).2⟩

/-! ## Refresh-token replay -/

/-- C4: refresh-token replay is rejected.  After a session is issued for user
`U` with refresh token `R1` (`createUserToken` on the table keyed by user), in
any store state, a refresh that presents `R1` for `U` succeeds and rotates the
stored value with `updateUserRefreshToken` to the new token `R2`, different
from `R1`; a second refresh that presents `R1` for `U` then fails with
`InvalidSession`, because `getTokenByUserId U` now returns a record that holds
`R2`, not `R1`. -/
theorem c4_keyed_refresh_replay (sign : String → SignedClaims → Nat) (secret : String)
    (now1 ttl1 now2 ttl2 t0 : Nat) (s : Store) (U : Nat) (R1 R2 R3 : String)
    (hnew : R2 ≠ R1) :
    ∃ s2 pair,
      refresh sign secret now1 ttl1 R2 (Keyed.createUserToken s U R1 t0).1 R1 U =
        .ok (s2, pair) ∧
      pair.refreshToken = R2 ∧
      s2 = (updateUserRefreshToken (Keyed.createUserToken s U R1 t0).1 U R2).1 ∧
      (∃ r, getTokenByUserId s2 U = some r ∧ r.refresh_token = R2 ∧ r.refresh_token ≠ R1) ∧
      refresh sign secret now2 ttl2 R3 s2 R1 U = .error .InvalidSession := by
  have hget := getTokenByUserId_keyed_create s U R1 t0
  have hrot := getTokenByUserId_update_keyed_create s U R1 R2 t0
  obtain ⟨r, hr, hr2⟩ := hrot
  refine ⟨_, ⟨encode sign secret now1 ⟨U, "access", ttl1⟩, R2⟩, ?_, rfl, rfl,
    ⟨r, hr, hr2, hr2 ▸ hnew⟩, ?_⟩
  · unfold refresh
    rw [hget]
    simp [row_keyed_createUserToken]
  · unfold refresh
    rw [hr]
    simp [hr2, hnew]

/-- Witness of `c4_keyed_refresh_replay`: user 7, who holds an older session, is
issued "R1"; the first refresh with "R1" rotates to "R2", the replay of "R1"
fails with `InvalidSession`. -/
theorem c4_keyed_refresh_replay_witness :
    "R2" ≠ "R1" ∧
    ∃ s2 pair,
      refresh toySign "k" 10 60 "R2" (Keyed.createUserToken staleStore 7 "R1" 5).1 "R1" 7 =
        .ok (s2, pair) ∧
      pair.refreshToken = "R2" ∧
      s2 = (updateUserRefreshToken (Keyed.createUserToken staleStore 7 "R1" 5).1 7 "R2").1 ∧
      (∃ r, getTokenByUserId s2 7 = some r ∧ r.refresh_token = "R2" ∧ r.refresh_token ≠ "R1") ∧
      refresh toySign "k" 20 60 "R3" s2 "R1" 7 = .error .InvalidSession :=
  ⟨by decide,
    c4_keyed_refresh_replay toySign "k" 10 60 20 60 5 staleStore 7 "R1" "R2" "R3" (by decide)⟩

/-! ## The handler of `GET /users/me` -/

/-- C10: the handler of `GET /users/me` calls `authUser` on the request query.
When `authUser` resolves with principal `p`, the handler performs exactly
`res.json(p)` and does not call `next`; when it rejects with `e`, the handler
sends nothing and calls `next(e)` exactly once; hence a principal is sent only
when `authUser` resolved with it. -/
theorem c10_get_me (ν ε : Type) (authUser : ν → Promise ν ε) (req : Request ν) :
    (∀ p, authUser req.query = .resolved p → (getMe authUser req).trace = [Effect.json p]) ∧
    (∀ e, authUser req.query = .rejected e → (getMe authUser req).trace = [Effect.next e]) ∧
    (∀ p, Effect.json p ∈ (getMe authUser req).trace → authUser req.query = .resolved p) := by
  refine ⟨fun p h => ?_, fun e h => ?_, fun p h => ?_⟩
  · simp [getMe, Chain.start, Chain.then_, Chain.catch_, h]
  · simp [getMe, Chain.start, Chain.then_, Chain.catch_, h]
  · cases hq : authUser req.query with
    | resolved v =>
      simp [getMe, Chain.start, Chain.then_, Chain.catch_, hq] at h
      rw [h]
    | rejected e => simp [getMe, Chain.start, Chain.then_, Chain.catch_, hq] at h
    | pending => simp [getMe, Chain.start, Chain.then_, Chain.catch_, hq] at h

/-- Witness of `c10_get_me`: the query "good" yields the JSON response "42" and
no call of `next`; the query "bad" yields `next("Unauthorized")` and no
response. -/
theorem c10_get_me_witness :
    (getMe sampleAuthUser ⟨"good", "", ""⟩).trace = [Effect.json "42"] ∧
    (getMe sampleAuthUser ⟨"bad", "", ""⟩).trace = [Effect.next "Unauthorized"] :=
  ⟨(c10_get_me String String sampleAuthUser ⟨"good", "", ""⟩).1 "42" (by decide),
    (c10_get_me String String sampleAuthUser ⟨"bad", "", ""⟩).2.1 "Unauthorized" (by decide)⟩

/-! ## The handler of `PUT /users/passwords` -/

/-- C11: the handler of `PUT /users/passwords` never echoes the reset token.
For every request and every value `v` that `passwordToken` resolves with, the
handler performs exactly `res.status(204).end()`: one response, status 204,
no body, no call of `next`; two runs that differ only in the minted value give
the same trace.  When `passwordToken` rejects with `e`, no response is sent and
`next(e)` is called once. -/
theorem c11_put_passwords (τ ε : Type) (passwordToken passwordToken2 : JsValue → Promise τ ε)
    (req : Request JsValue) :
    (∀ v, passwordToken (req.body.get "email") = .resolved v →
      (putPasswords passwordToken req).trace = [Effect.status 204, Effect.end_] ∧
      responses (putPasswords passwordToken req).trace = [⟨204, none⟩] ∧
      nextCalls (putPasswords passwordToken req).trace = []) ∧
    (∀ v v2, passwordToken (req.body.get "email") = .resolved v →
      passwordToken2 (req.body.get "email") = .resolved v2 →
      (putPasswords passwordToken req).trace = (putPasswords passwordToken2 req).trace) ∧
    (∀ e, passwordToken (req.body.get "email") = .rejected e →
      (putPasswords passwordToken req).trace = [Effect.next e] ∧
      responses (putPasswords passwordToken req).trace = [] ∧
      nextCalls (putPasswords passwordToken req).trace = [e]) := by
  refine ⟨fun v h => ?_, fun v v2 h h2 => ?_, fun e h => ?_⟩
  · simp [putPasswords, Chain.start, Chain.then_, Chain.catch_, h, responses, responsesFrom,
      nextCalls]
  · simp [putPasswords, Chain.start, Chain.then_, Chain.catch_, h, h2]
  · simp [putPasswords, Chain.start, Chain.then_, Chain.catch_, h, responses, responsesFrom,
      nextCalls]

/-- Witness of `c11_put_passwords`: two services that mint "t1" and "t2" for
the same email give the same trace, one response with status 204 and no body;
a service that rejects gives `next("no user")` and no response. -/
theorem c11_put_passwords_witness :
    responses (putPasswords (fun _ => (Promise.resolved "t1" : Promise String String))
      sampleResetRequest).trace = [⟨204, none⟩] ∧
    (putPasswords (fun _ => (Promise.resolved "t1" : Promise String String))
        sampleResetRequest).trace =
      (putPasswords (fun _ => (Promise.resolved "t2" : Promise String String))
        sampleResetRequest).trace ∧
    (putPasswords (fun _ => (Promise.rejected "no user" : Promise String String))
      sampleResetRequest).trace = [Effect.next "no user"] :=
  ⟨((c11_put_passwords String String (fun _ => .resolved "t1") (fun _ => .resolved "t2")
      sampleResetRequest).1 "t1" rfl).2.1,
    (c11_put_passwords String String (fun _ => .resolved "t1") (fun _ => .resolved "t2")
      sampleResetRequest).2.1 "t1" "t2" rfl rfl,
    ((c11_put_passwords String String (fun _ => .rejected "no user") (fun _ => .resolved "t2")
      sampleResetRequest).2.2 "no user" rfl).1⟩

/-! ## The competitions routes -/

open Competition

/-- C12: every competitions route handler produces exactly one outcome,
determined by its service call.  When the service promise resolves with `v`,
exactly one response is sent, with the success status of the route's swagger
comment (200 with `v` as JSON on the three GET routes, 201 without body on the
two POST routes, 204 without body on PUT and the two DELETE routes), and `next`
is not called; when it rejects with `e`, no response is sent and `next(e)` is
called exactly once. -/
theorem c12_competition_routes (ε : Type) (svc : CompetitionService ε) (req : Request JsValue)
    (route : Route) :
    (∀ v, serviceCall svc req route = .resolved v →
      responses (handler svc req route).trace =
        [⟨swaggerSuccess route, successBody v route⟩] ∧
      nextCalls (handler svc req route).trace = []) ∧
    (∀ e, serviceCall svc req route = .rejected e →
      responses (handler svc req route).trace = [] ∧
      nextCalls (handler svc req route).trace = [e]) ∧
    (swaggerSuccess .getAll = 200 ∧ swaggerSuccess .getById = 200 ∧
      swaggerSuccess .getFollowers = 200 ∧ swaggerSuccess .post = 201 ∧
      swaggerSuccess .postFollower = 201 ∧ swaggerSuccess .put = 204 ∧
      swaggerSuccess .delete = 204 ∧ swaggerSuccess .deleteFollower = 204) := by
  refine ⟨fun v h => ?_, fun e h => ?_, by decide⟩
  · cases route <;>
      simp [serviceCall] at h <;>
      simp [handler, sendJson, sendStatus, Chain.start, Chain.then_, Chain.catch_, h, responses,
        responsesFrom, nextCalls, swaggerSuccess, successBody]
  · cases route <;>
      simp [serviceCall] at h <;>
      simp [handler, sendJson, sendStatus, Chain.start, Chain.then_, Chain.catch_, h, responses,
        responsesFrom, nextCalls]

/-- Witness of `c12_competition_routes`: with a service whose reads resolve with
`[]` and whose writes are rejected with "denied", `GET /` sends one response,
200 with `[]`, and `POST /` sends nothing and calls `next("denied")` once. -/
theorem c12_competition_routes_witness :
    (responses (handler sampleService sampleResetRequest .getAll).trace =
        [⟨200, some (.array [])⟩] ∧
      nextCalls (handler sampleService sampleResetRequest .getAll).trace = []) ∧
    (responses (handler sampleService sampleResetRequest .post).trace = [] ∧
      nextCalls (handler sampleService sampleResetRequest .post).trace = ["denied"]) :=
  ⟨(c12_competition_routes String sampleService sampleResetRequest .getAll).1 (.array []) rfl,
    (c12_competition_routes String sampleService sampleResetRequest .post).2.1 "denied" rfl⟩

/-! ## Rotation changes only the token value -/

/-- C13: for every store, user `U` and token `T`, `updateUserRefreshToken`
keeps the number and the order of the rows and the auto-increment key; the row
at each position keeps its `id`, `user_id` and `expiration_date`; a row of
another user is entirely unchanged; a row of `U` holds `T`.  In particular a
record created at instant `now` and then rotated still carries
`expiration_date = now`. -/
theorem c13_update_frame (s : Store) (U : Nat) (T : String) :
    (updateUserRefreshToken s U T).1.rows.length = s.rows.length ∧
    (updateUserRefreshToken s U T).1.nextId = s.nextId ∧
    (∀ (k : Nat) (r : Row), s.rows[k]? = some r →
      ∃ r2 : Row, (updateUserRefreshToken s U T).1.rows[k]? = some r2 ∧
        r2.id = r.id ∧ r2.user_id = r.user_id ∧ r2.expiration_date = r.expiration_date ∧
        (r.user_id ≠ U → r2 = r) ∧ (r.user_id = U → r2.refresh_token = T)) ∧
    (∀ T1 now, getTokenByUserId s U = none →
      ∃ r, getTokenByUserId (updateUserRefreshToken (createUserToken s U T1 now).1 U T).1 U =
          some r ∧
        r.expiration_date = now ∧ r.refresh_token = T) := by
  refine ⟨?_, rfl, fun k r hk => ?_, fun T1 now hnone => ?_⟩
  · rw [rows_updateUserRefreshToken, List.length_map]
  · refine ⟨if r.user_id == U then { r with refresh_token := T } else r, ?_, ?_, ?_, ?_, ?_, ?_⟩
    · rw [rows_updateUserRefreshToken, List.getElem?_map, hk]
      rfl
    · split <;> rfl
    · split <;> rfl
    · split <;> rfl
    · intro hne
      have hb : (r.user_id == U) = false := by simpa using hne
      simp [hb]
    · intro he
      simp [he]
  · rw [getTokenByUserId_eq] at hnone
    have hno : ∀ r ∈ s.rows, r.user_id ≠ U := by
      simpa [List.find?_eq_none] using hnone
    refine ⟨⟨s.nextId, U, T, now⟩, ?_, rfl, rfl⟩
    rw [getTokenByUserId_eq, rows_updateUserRefreshToken, rows_createUserToken, List.map_append,
      map_update_of_no_row s.rows U T hno, List.find?_append, hnone]
    simp

/-- Witness of `c13_update_frame`: rotating user 7 in the table that holds the
row `(1, 7, "old", 0)` leaves `(1, 7, "new", 0)` at position 0, and a session
created at instant 9 in the empty table is found, after rotation, with
`expiration_date = 9`. -/
theorem c13_update_frame_witness :
    (∃ r2 : Row, (updateUserRefreshToken staleStore 7 "new").1.rows[0]? = some r2 ∧
        r2.id = 1 ∧ r2.user_id = 7 ∧ r2.expiration_date = 0 ∧
        (7 ≠ 7 → r2 = ⟨1, 7, "old", 0⟩) ∧ (7 = 7 → r2.refresh_token = "new")) ∧
    ∃ r, getTokenByUserId (updateUserRefreshToken (createUserToken emptyStore 7 "a" 9).1 7 "b").1 7 =
        some r ∧ r.expiration_date = 9 ∧ r.refresh_token = "b" :=
  ⟨(c13_update_frame staleStore 7 "new").2.2.1 0 ⟨1, 7, "old", 0⟩ rfl,
    (c13_update_frame emptyStore 7 "b").2.2.2 "a" 9 (by decide)⟩

/-! ## The handler of `PUT /users/:id/roles` -/

namespace Http

/-- Whenever `roles` is not an array and the path carries a user id, the handler
sends status 401 with `{ error: 'incorest data' }`, then calls
`deleteRolesByUser(userId)`, then throws on `roles.map`; `createUserRoles` is
not called. -/
theorem putRoles_of_not_array {ε : Type} (createUserRoles : List JsValue → Promise Unit ε)
    (req : Request JsValue) (hroles : (req.body.get "roles").isArray = false) :
    putRoles createUserRoles req =
      ⟨[.res (.status 401), .res (.send (.object [("error", .string "incorest data")])),
        .deleteRolesByUser (req.params.get "id")], true⟩ := by
  unfold putRoles
  cases hr : req.body.get "roles" with
  | array items => rw [hr] at hroles; simp [JsValue.isArray] at hroles
  | undefined => simp [JsValue.isArray]
  | null => simp [JsValue.isArray]
  | bool b => simp [JsValue.isArray]
  | number n => simp [JsValue.isArray]
  | string str => simp [JsValue.isArray]
  | object fields => simp [JsValue.isArray]

end Http

/-- C14 fails on the code: on `PUT /users/5/roles` with body
`{ roles: "admin" }` the handler sends status 401 with
`{ error: 'incorest data' }`, one response, and then, for want of a `return`
after the guard, calls `usersRolesService.deleteRolesByUser("5")` before
`roles.map` throws; only `createUserRoles` is not called. -/
theorem c14_put_roles_falls_through :
    putRoles sampleCreateUserRoles badRolesRequest =
      ⟨[.res (.status 401), .res (.send (.object [("error", .string "incorest data")])),
        .deleteRolesByUser (.string "5")], true⟩ :=
  putRoles_of_not_array sampleCreateUserRoles badRolesRequest rfl

/-! ## The client auth module -/

open Auth

/-- C15: the mutation `setAuthData(state, d)` sets `authData` to `d` and leaves
`showLogin` unchanged; `setShowLogin(state, b)` sets `showLogin` to `b` and
leaves `authData` unchanged.  When the login request resolves with `res`, the
action `loginUser` commits exactly `setAuthData` with `res.data`, which takes
the state to `setAuthData state res.data`, and resolves with `res`; when the
request rejects with `err`, it commits nothing, the state is unchanged, and
the action resolves, not rejects, with `err`. -/
theorem c15_auth_module (ν ε : Type) (state : State ν) (d b : ν)
    (post : String → ν → Promise (AxiosResponse ν) ε) (newUser : ν) :
    ((setAuthData state d).authData = d ∧ (setAuthData state d).showLogin = state.showLogin) ∧
    ((setShowLogin state b).showLogin = b ∧ (setShowLogin state b).authData = state.authData) ∧
    (∀ res, post "login" newUser = .resolved res →
      (loginUser post newUser).commits = [⟨"setAuthData", res.data⟩] ∧
      applyCommits state (loginUser post newUser).commits = setAuthData state res.data ∧
      (loginUser post newUser).promise = .resolved (.response res)) ∧
    (∀ err, post "login" newUser = .rejected err →
      (loginUser post newUser).commits = [] ∧
      applyCommits state (loginUser post newUser).commits = state ∧
      (loginUser post newUser).promise = .resolved (.error err)) := by
  refine ⟨⟨rfl, rfl⟩, ⟨rfl, rfl⟩, fun res h => ?_, fun err h => ?_⟩
  · simp [loginUser, h, applyCommits, applyCommit]
  · simp [loginUser, h, applyCommits]

/-- Witness of `c15_auth_module`: the login of "ann" commits `setAuthData` with
"token-ann" and resolves with the response; the login of "bob" commits nothing
and resolves with the error "401". -/
theorem c15_auth_module_witness :
    ((loginUser samplePost "ann").commits = [⟨"setAuthData", "token-ann"⟩] ∧
      applyCommits ⟨"true", ""⟩ (loginUser samplePost "ann").commits = ⟨"true", "token-ann"⟩ ∧
      (loginUser samplePost "ann").promise = .resolved (.response ⟨"token-ann", 200⟩)) ∧
    ((loginUser samplePost "bob").commits = [] ∧
      applyCommits ⟨"true", ""⟩ (loginUser samplePost "bob").commits = ⟨"true", ""⟩ ∧
      (loginUser samplePost "bob").promise = .resolved (.error "401")) :=
  ⟨(c15_auth_module String String ⟨"true", ""⟩ "" "" samplePost "ann").2.2.1 ⟨"token-ann", 200⟩
      (by decide),
    (c15_auth_module String String ⟨"true", ""⟩ "" "" samplePost "bob").2.2.2 "401" (by decide)⟩
